import Mathlib

/-!
Verification of the clockblocker bot (`src/bot.py`) against its
natural-language specification.

The embedding is a shallow one: the module-level mutable stores (the
response cache and the rate-limit store) become explicit state values
threaded through the functions, and `datetime.now()` becomes an explicit
`now : Nat` parameter measured in milliseconds (Python `timedelta` is
sub-second; one millisecond granularity captures the truncation performed
by `int(remaining_time.total_seconds())` as division by 1000).  Each
handler invocation is modelled with a single instant, matching the
specification's reading of the code.  The external LLM HTTP call is
modelled by an oracle `api : String -> String -> Option String` mapping a
model identifier and a prompt to `some content` (HTTP 2xx with a
well-formed body) or `none` (network error, non-2xx status or malformed
body).  Outbound chat traffic is modelled as a list of `Emission` values.
-/

/-- `RATE_LIMIT_DURATION = timedelta(minutes=1)`, in milliseconds. -/
def RATE_LIMIT_DURATION : Nat := 60000

/-- `CACHE_DURATION = timedelta(minutes=30)`, in milliseconds. -/
def CACHE_DURATION : Nat := 1800000

/-- `MAX_REQUESTS_PER_MINUTE = 2`. -/
def MAX_REQUESTS_PER_MINUTE : Nat := 2

/-- The rate-limit store `rate_limit_store = defaultdict(list)`:
a partial map from user id to the ordered list of request instants.
`none` means the key is absent from the underlying dict; `some l` means the
key is present and maps to the list `l` (which may be `[]`, exactly as a
Python dict entry can transiently hold an empty list). -/
def RateLimitStore : Type := Nat → Option (List Nat)

/-- The store at process start: no keys at all. -/
def emptyStore : RateLimitStore := fun _ => none

/-- Reading `rate_limit_store[user_id]` as a value: a missing key reads as
the empty list (defaultdict semantics). -/
def ddGet (s : RateLimitStore) (uid : Nat) : List Nat := (s uid).getD []

/-- The side effect of `defaultdict.__getitem__`: reading a key inserts it
with the default `[]` when it was absent.  `is_rate_limited` performs this
insertion through `len(rate_limit_store[user_id])`. -/
def ddTouch (s : RateLimitStore) (uid : Nat) : RateLimitStore :=
  fun v => if v = uid then some (ddGet s uid) else s v

/-- `cleanup_rate_limit_store()` (src/bot.py lines 52-64): for every user
currently in the store, keep only the timestamps `t` with
`now - t < RATE_LIMIT_DURATION`, and delete the user's entry when nothing
remains.  The Python loop over `list(rate_limit_store.keys())` acts
pointwise on every present key, which is what this function does. -/
def cleanup_rate_limit_store (now : Nat) (s : RateLimitStore) : RateLimitStore :=
  fun uid =>
    match s uid with
    | none => none
    | some l =>
      let kept := l.filter (fun t => decide (now - t < RATE_LIMIT_DURATION))
      if kept.isEmpty then none else some kept

/-- `is_rate_limited(user_id)` (src/bot.py lines 67-71): run the cleanup
pass, then compare `len(rate_limit_store[user_id])` with
`MAX_REQUESTS_PER_MINUTE`.  The defaultdict read re-inserts `user_id`
with its (possibly empty) pruned list, so the returned store reflects that
insertion.  Returns the boolean answer together with the store after the
call's side effects. -/
def is_rate_limited (now : Nat) (s : RateLimitStore) (uid : Nat) : Bool × RateLimitStore :=
  let s1 := cleanup_rate_limit_store now s
  (decide (MAX_REQUESTS_PER_MINUTE ≤ (ddGet s1 uid).length), ddTouch s1 uid)

/-- `update_rate_limit(user_id)` (src/bot.py lines 74-76): append `now` to
the user's list (creating it via the defaultdict when absent).  No pruning
happens here. -/
def update_rate_limit (now : Nat) (s : RateLimitStore) (uid : Nat) : RateLimitStore :=
  fun v => if v = uid then some (ddGet s uid ++ [now]) else s v

/-- `int(remaining_time.total_seconds())` where
`remaining_time = RATE_LIMIT_DURATION - (now - t0)`: with instants in
milliseconds and the remainder non-negative, Python's truncation toward
zero is floor division by 1000. -/
def seconds_remaining (now t0 : Nat) : Nat :=
  (RATE_LIMIT_DURATION - (now - t0)) / 1000

/-- The rate-limited branch of `handle_message` (src/bot.py lines 222-231):
if `is_rate_limited(user_id)` answers true, read
`rate_limit_store[user_id][0]` on the post-call store and report the
remaining wait in whole seconds; `none` in that branch would mean the
indexing `[0]` hit an empty list (an IndexError).  When the user is not
limited the function yields `none` (no wait message is sent). -/
def handle_message_wait (now : Nat) (s : RateLimitStore) (uid : Nat) : Option Nat :=
  let r := is_rate_limited now s uid
  if r.1 then (ddGet r.2 uid).head?.map (fun t0 => seconds_remaining now t0)
  else none

/-- The two cache keys of the `cache` dict (src/bot.py lines 43-46). -/
inductive CacheKey
  | philosophical_discussion
  | absurd_guess
deriving DecidableEq

/-- One entry of the `cache` dict: `{"text": ..., "timestamp": ...}`. -/
structure CacheEntry where
  text : Option String
  timestamp : Option Nat

/-- The `cache` dict: a total map from the two fixed keys to entries. -/
def Cache : Type := CacheKey → CacheEntry

/-- The cache at process start: both entries `{"text": None, "timestamp": None}`. -/
def initial_cache : Cache := fun _ => ⟨none, none⟩

/-- `is_cache_valid(cache_type)` (src/bot.py lines 85-88): false when the
timestamp is `None` (a `datetime` value is always truthy in Python, so the
falsiness test is exactly a `None` test), otherwise true iff
`now - timestamp < CACHE_DURATION`. -/
def is_cache_valid (now : Nat) (c : Cache) (k : CacheKey) : Bool :=
  match (c k).timestamp with
  | none => false
  | some ts => decide (now - ts < CACHE_DURATION)

/-- The shared body of `philosophical_time_discussion` and
`absurd_time_guess` (src/bot.py lines 111-122 and 125-135), the
`get_or_compute(key, producer)` operation of the specification: on a valid
cache entry return the stored text untouched; otherwise take the
producer's result `response`, overwrite the entry with
`{"text": response, "timestamp": now}` and return the result.  The third
component records whether the producer was invoked during the call. -/
def get_or_compute (now : Nat) (c : Cache) (k : CacheKey) (response : String) :
    Option String × Cache × Bool :=
  if is_cache_valid now c k then ((c k).text, c, false)
  else (some response, fun v => if v = k then ⟨some response, some now⟩ else c v, true)

/-- The default model identifier `"deepseek/deepseek-chat:free"`. -/
def freeModel : String := "deepseek/deepseek-chat:free"

/-- The fallback model identifier `"deepseek/deepseek-chat"`. -/
def fallbackModel : String := "deepseek/deepseek-chat"

/-- The fixed apology returned when the fallback model also fails
(src/bot.py line 108; the trailing characters are the exact code points
stored in the source file). -/
def FALLBACK_TEXT : String :=
  "My temporal consciousness seems to be malfunctioning... \uF8FF\u00FC\u00A7\u00F1"

/-- `get_ai_response(prompt, model)` (src/bot.py lines 91-108): try the
HTTP call; on `some content` return it; on failure, if the model was the
free default, recurse once with the fallback model, otherwise return the
fixed apology.  The second component logs every (model, prompt) pair for
which an HTTP call was attempted, in order.  The function is total: no
failure of `api` ever escapes it. -/
def get_ai_response (api : String → String → Option String) (prompt : String)
    (model : String) : String × List (String × String) :=
  match api model prompt with
  | some content => (content, [(model, prompt)])
  | none =>
    if h : model = freeModel then
      let r := get_ai_response api prompt fallbackModel
      (r.1, (model, prompt) :: r.2)
    else
      (FALLBACK_TEXT, [(model, prompt)])
termination_by (if model = freeModel then 1 else 0)
decreasing_by
  subst h
  simp only [freeModel, fallbackModel]
  decide

/-- The prompt of `philosophical_time_discussion` (src/bot.py lines 115-119). -/
def PHILOSOPHICAL_PROMPT : String :=
  "\n    Provide a brief but profound philosophical discussion about the nature of time.\n    Make it somewhat humorous but also genuinely thought-provoking.\n    Keep it under 150 words.\n    "

/-- The prompt of `absurd_time_guess` (src/bot.py lines 129-132). -/
def ABSURD_PROMPT : String :=
  "\n    Make an absurd guess about what time it is right now using extremely questionable logic.\n    Be creative and humorous. Keep it under 100 words.\n    "

/-- `philosophical_time_discussion()` (src/bot.py lines 111-122). -/
def philosophical_time_discussion (now : Nat) (c : Cache)
    (api : String → String → Option String) : Option String × Cache × Bool :=
  get_or_compute now c CacheKey.philosophical_discussion
    (get_ai_response api PHILOSOPHICAL_PROMPT freeModel).1

/-- `absurd_time_guess()` (src/bot.py lines 125-135). -/
def absurd_time_guess (now : Nat) (c : Cache)
    (api : String → String → Option String) : Option String × Cache × Bool :=
  get_or_compute now c CacheKey.absurd_guess
    (get_ai_response api ABSURD_PROMPT freeModel).1

/-- The five flavor-text templates of `ridiculous_time_estimation`
(src/bot.py lines 139-145). -/
def methods : List String :=
  ["Based on my analysis of current internet meme trends, which clearly indicate a temporal shift in the collective consciousness...",
   "By measuring the quantum fluctuations in my CPU\u0027s processing speed and converting them to temporal coordinates...",
   "After consulting the ancient art of chronological divination through random number generation...",
   "Using advanced calculations based on the number of cat videos posted in the last hour...",
   "By interpreting the cosmic background radiation as a temporal signal..."]

/-- Python's `random.randint(lo, hi)` (both ends inclusive), driven by an
arbitrary seed drawn fresh from the random source. -/
def randint (lo hi seed : Nat) : Nat := lo + seed % (hi - lo + 1)

/-- `ridiculous_time_estimation()` (src/bot.py lines 138-146): a pure
function of four fresh random draws — the template choice
(`random.choice(methods)`), the hour (`random.randint(1, 12)`), the
minute (`random.randint(0, 59)`) and the AM/PM coin
(`random.random() > 0.5`).  It touches neither the cache nor the API
oracle: neither appears among its arguments. -/
def ridiculous_time_estimation (choiceSeed hourSeed minuteSeed : Nat)
    (amCoin : Bool) : String :=
  methods.getD (choiceSeed % methods.length) "" ++ " I estimate it\u0027s " ++
    toString (randint 1 12 hourSeed) ++ ":" ++ toString (randint 0 59 minuteSeed) ++
    " " ++ (if amCoin then "AM" else "PM") ++ "!"

/-- One outbound operation of `time_process`: a typing indicator
(`send_chat_action`) or a message (`send_message` with the given text). -/
inductive Emission
  | typing
  | message (text : String)
deriving DecidableEq

/-- Intro message of step 1 (src/bot.py line 164; non-ASCII code points as
stored in the source file). -/
def INTRO_1 : String :=
  "\uF8FF\u00FC\u00A7\u00EE Before I tell you the time, let\u0027s ponder the nature of time itself..."

/-- Intro message of step 2 (src/bot.py line 175). -/
def INTRO_2 : String :=
  "\uF8FF\u00FC\u00EE\u00C6 Now, let me make an educated guess about the current time..."

/-- Intro message of step 3 (src/bot.py line 186). -/
def INTRO_3 : String :=
  "\uF8FF\u00FC\u00DF\u2122 That didn\u0027t feel right. Let me try a more scientific approach..."

/-- The static external link in the closing message. -/
def CLOCK_URL : String := "https://www.clockfaceonline.co.uk/clocks/digital/"

/-- Text of the closing message before the link (src/bot.py lines 197-200). -/
def CLOSING_BEFORE_URL : String :=
  "\uF8FF\u00FC\u00F2\u00D6 *sigh* You know what? I give up.\n\nAfter all this philosophical contemplation, wild guessing, and questionable scientific methods, maybe you should just check the time yourself:\n\n\uF8FF\u00FC\u00EE\u00F3 "

/-- Text of the closing message after the link (src/bot.py lines 200-201). -/
def CLOSING_AFTER_URL : String :=
  "\n\n(I\u0027ll be here questioning the nature of temporal reality if you need me again...)"

/-- The full closing message of step 4 (src/bot.py lines 196-202). -/
def CLOSING_TEXT : String := CLOSING_BEFORE_URL ++ CLOCK_URL ++ CLOSING_AFTER_URL

/-- `time_process` (src/bot.py lines 149-204) as its outbound traffic,
given the three computed texts (philosophy, guess, estimation): six typing
indicators and seven messages, in program order. -/
def time_process (philosophy guess estimation : String) : List Emission :=
  [Emission.typing, Emission.message INTRO_1,
   Emission.typing, Emission.message philosophy,
   Emission.typing, Emission.message INTRO_2,
   Emission.typing, Emission.message guess,
   Emission.typing, Emission.message INTRO_3,
   Emission.typing, Emission.message estimation,
   Emission.message CLOSING_TEXT]

/-- The message texts of an emission trace, in order, with typing
indicators dropped. -/
def messagesOf (es : List Emission) : List String :=
  es.filterMap (fun e =>
    match e with
    | Emission.typing => none
    | Emission.message t => some t)

/-- `pat` occurs contiguously inside `s`. -/
def containsSubstring (s pat : String) : Prop := ∃ a b : String, s = a ++ pat ++ b

/-- The cache invariant of the specification: `text` is absent iff
`timestamp` is absent, at every key. -/
def cache_inv (c : Cache) : Prop :=
  ∀ k : CacheKey, ((c k).text = none ↔ (c k).timestamp = none)

/-! ## Supporting lemmas -/

theorem cleanup_mem_window {now : Nat} {s : RateLimitStore} {uid t : Nat}
    {l : List Nat} (he : cleanup_rate_limit_store now s uid = some l)
    (ht : t ∈ l) : now - t < RATE_LIMIT_DURATION := by
  unfold cleanup_rate_limit_store at he
  cases h0 : s uid with
  | none => rw [h0] at he; exact absurd he (by simp)
  | some l0 =>
    rw [h0] at he
    simp only at he
    by_cases hk : (l0.filter (fun t => decide (now - t < RATE_LIMIT_DURATION))).isEmpty
    · rw [if_pos hk] at he; exact absurd he (by simp)
    · rw [if_neg hk] at he
      have : t ∈ l0.filter (fun t => decide (now - t < RATE_LIMIT_DURATION)) := by
        rw [Option.some_inj] at he; rw [he]; exact ht
      have := List.of_mem_filter this
      exact of_decide_eq_true this

theorem cleanup_no_empty (now : Nat) (s : RateLimitStore) (uid : Nat) :
    cleanup_rate_limit_store now s uid ≠ some [] := by
  unfold cleanup_rate_limit_store
  cases h0 : s uid with
  | none => simp
  | some l0 =>
    simp only
    by_cases hk : (l0.filter (fun t => decide (now - t < RATE_LIMIT_DURATION))).isEmpty
    · rw [if_pos hk]; simp
    · rw [if_neg hk]
      intro hcon
      rw [Option.some_inj] at hcon
      rw [hcon] at hk
      exact hk (by simp)

/-! ## Claim C1 -/

/-- Claim C1: for a fresh user (no timestamps recorded), three
`is_rate_limited` checks within one 60-second window, with
`update_rate_limit` recording the request after each of the first two
checks, answer false, false and then true. -/
theorem C1_rate_limiter_admits_exactly_two
    (s0 : RateLimitStore) (uid : Nat) (now1 rec1 now2 rec2 now3 : Nat)
    (hfresh : s0 uid = none ∨ s0 uid = some [])
    (h1 : now1 ≤ rec1) (h2 : rec1 ≤ now2) (h3 : now2 ≤ rec2) (h4 : rec2 ≤ now3)
    (hwin : now3 - now1 < RATE_LIMIT_DURATION) :
    (is_rate_limited now1 s0 uid).1 = false ∧
    (is_rate_limited now2
      (update_rate_limit rec1 (is_rate_limited now1 s0 uid).2 uid) uid).1 = false ∧
    (is_rate_limited now3
      (update_rate_limit rec2
        (is_rate_limited now2
          (update_rate_limit rec1 (is_rate_limited now1 s0 uid).2 uid) uid).2 uid)
      uid).1 = true := by
  have e1 : cleanup_rate_limit_store now1 s0 uid = none := by
    rcases hfresh with h | h <;> simp [cleanup_rate_limit_store, h]
  have e2 : (update_rate_limit rec1
      (ddTouch (cleanup_rate_limit_store now1 s0) uid) uid) uid
      = some [rec1] := by
    simp [update_rate_limit, ddTouch, ddGet, e1]
  have hr1 : now2 - rec1 < RATE_LIMIT_DURATION :=
    lt_of_le_of_lt (by omega) hwin
  have e3 : cleanup_rate_limit_store now2
      (update_rate_limit rec1
        (ddTouch (cleanup_rate_limit_store now1 s0) uid) uid) uid
      = some [rec1] := by
    simp [cleanup_rate_limit_store, e2, hr1]
  have e4 : (update_rate_limit rec2
      (ddTouch (cleanup_rate_limit_store now2
        (update_rate_limit rec1
          (ddTouch (cleanup_rate_limit_store now1 s0) uid) uid)) uid) uid) uid
      = some [rec1, rec2] := by
    simp [update_rate_limit, ddTouch, ddGet, e3]
  have hr2 : now3 - rec1 < RATE_LIMIT_DURATION :=
    lt_of_le_of_lt (by omega) hwin
  have hr3 : now3 - rec2 < RATE_LIMIT_DURATION :=
    lt_of_le_of_lt (by omega) hwin
  have e5 : cleanup_rate_limit_store now3
      (update_rate_limit rec2
        (ddTouch (cleanup_rate_limit_store now2
          (update_rate_limit rec1
            (ddTouch (cleanup_rate_limit_store now1 s0) uid) uid)) uid) uid) uid
      = some [rec1, rec2] := by
    simp [cleanup_rate_limit_store, e4, hr2, hr3]
  simp only [is_rate_limited]
  refine ⟨?_, ?_, ?_⟩
  · simp [ddGet, e1, MAX_REQUESTS_PER_MINUTE]
  · simp [ddGet, e3, MAX_REQUESTS_PER_MINUTE]
  · simp [ddGet, e5, MAX_REQUESTS_PER_MINUTE]

/-- Witness for C1 at user 0: checks at 0 ms, 1000 ms and 2000 ms, records
at 500 ms and 1500 ms, starting from the empty store. -/
theorem C1_witness :
    (is_rate_limited 0 emptyStore 0).1 = false ∧
    (is_rate_limited 1000
      (update_rate_limit 500 (is_rate_limited 0 emptyStore 0).2 0) 0).1 = false ∧
    (is_rate_limited 2000
      (update_rate_limit 1500
        (is_rate_limited 1000
          (update_rate_limit 500 (is_rate_limited 0 emptyStore 0).2 0) 0).2 0)
      0).1 = true :=
  C1_rate_limiter_admits_exactly_two emptyStore 0 0 500 1000 1500 2000
    (Or.inl rfl) (by decide) (by decide) (by decide) (by decide) (by decide)

/-! ## Claim C6 -/

/-- Counterexample for claim C6 as stated: immediately after an
`is_rate_limited` call has returned for a fresh user, the mapping does
hold an empty sequence — the defaultdict read
`len(rate_limit_store[user_id])` re-inserts the queried user with `[]`
after the cleanup pass removed it. -/
theorem C6_counterexample :
    ∃ uid : Nat, (is_rate_limited 0 emptyStore 7).2 uid = some [] :=
  ⟨7, rfl⟩

/-- Claim C6 (amended): after any cleanup pass every remaining timestamp
`t` satisfies `now - t < 60` seconds and no user is mapped to an empty
sequence; after an `is_rate_limited` call every user other than the
queried one still has no empty sequence, but the queried user is mapped to
its pruned list, which is empty exactly when the user had no request in
the window. -/
theorem C6_amended_cleanup_invariant :
    (∀ now : Nat, ∀ s : RateLimitStore, ∀ uid t : Nat, ∀ l : List Nat,
      cleanup_rate_limit_store now s uid = some l → t ∈ l →
        now - t < RATE_LIMIT_DURATION) ∧
    (∀ now : Nat, ∀ s : RateLimitStore, ∀ uid : Nat,
      cleanup_rate_limit_store now s uid ≠ some []) ∧
    (∀ now : Nat, ∀ s : RateLimitStore, ∀ uid v : Nat, v ≠ uid →
      (is_rate_limited now s uid).2 v ≠ some []) ∧
    (∀ now : Nat, ∀ s : RateLimitStore, ∀ uid : Nat,
      (is_rate_limited now s uid).2 uid =
        some (ddGet (cleanup_rate_limit_store now s) uid)) := by
  refine ⟨fun now s uid t l he ht => cleanup_mem_window he ht,
          fun now s uid => cleanup_no_empty now s uid, ?_, ?_⟩
  · intro now s uid v hv
    have hrw : (is_rate_limited now s uid).2 v = cleanup_rate_limit_store now s v := by
      simp [is_rate_limited, ddTouch, hv]
    rw [hrw]
    exact cleanup_no_empty now s v
  · intro now s uid
    simp [is_rate_limited, ddTouch]

/-- Witness for the amended C6: a concrete surviving timestamp is inside
the window, and a user other than the queried one is not mapped to an
empty sequence. -/
theorem C6_amended_witness :
    (0 : Nat) - 0 < RATE_LIMIT_DURATION ∧
    (is_rate_limited 0 emptyStore 7).2 3 ≠ some [] :=
  ⟨C6_amended_cleanup_invariant.1 0 (fun v => if v = 5 then some [0] else none)
      5 0 [0] rfl (by simp),
   C6_amended_cleanup_invariant.2.2.1 0 emptyStore 7 3 (by decide)⟩

/-! ## Claim C10 -/

/-- Claim C10: whenever `is_rate_limited` answers true, the queried user's
sequence in the post-call store has length at least
`MAX_REQUESTS_PER_MINUTE = 2`, so its first element exists and the
wait-time computation of `handle_message` cannot fail on an empty list. -/
theorem C10_limited_implies_nonempty :
    ∀ now : Nat, ∀ s : RateLimitStore, ∀ uid : Nat,
      (is_rate_limited now s uid).1 = true →
      MAX_REQUESTS_PER_MINUTE ≤ (ddGet (is_rate_limited now s uid).2 uid).length ∧
      (ddGet (is_rate_limited now s uid).2 uid).head?.isSome = true ∧
      handle_message_wait now s uid ≠ none := by
  intro now s uid h
  have hlen : MAX_REQUESTS_PER_MINUTE ≤
      (ddGet (cleanup_rate_limit_store now s) uid).length := by
    have h2 := h
    simp only [is_rate_limited] at h2
    exact of_decide_eq_true h2
  have hdd : ddGet (is_rate_limited now s uid).2 uid =
      ddGet (cleanup_rate_limit_store now s) uid := by
    simp [is_rate_limited, ddTouch, ddGet]
  have hne : ddGet (cleanup_rate_limit_store now s) uid ≠ [] := by
    intro hc
    rw [hc] at hlen
    simp [MAX_REQUESTS_PER_MINUTE] at hlen
  have hhead : (ddGet (cleanup_rate_limit_store now s) uid).head?.isSome = true := by
    cases hl : ddGet (cleanup_rate_limit_store now s) uid with
    | nil => exact absurd hl hne
    | cons a as => simp
  refine ⟨by rw [hdd]; exact hlen, by rw [hdd]; exact hhead, ?_⟩
  simp only [handle_message_wait, h, if_true, hdd]
  cases hl : ddGet (cleanup_rate_limit_store now s) uid with
  | nil => exact absurd hl hne
  | cons a as => simp

/-- Witness for C10: a user with two requests at instant 0, queried at
instant 0. -/
theorem C10_witness :
    MAX_REQUESTS_PER_MINUTE ≤
      (ddGet (is_rate_limited 0 (fun v => if v = 0 then some [0, 0] else none) 0).2 0).length ∧
    (ddGet (is_rate_limited 0 (fun v => if v = 0 then some [0, 0] else none) 0).2 0).head?.isSome
      = true ∧
    handle_message_wait 0 (fun v => if v = 0 then some [0, 0] else none) 0 ≠ none :=
  C10_limited_implies_nonempty 0 (fun v => if v = 0 then some [0, 0] else none) 0 (by decide)

/-! ## Claim C5 -/

/-- Claim C5: when a user is limited, the reported wait equals
`RATE_LIMIT_DURATION` minus (now minus the first element of the
already-pruned sequence), truncated down to whole seconds; in particular
two timestamps at `t0` and `t0 + 10 s` queried at `t0 + 15 s` yield 45
seconds. -/
theorem C5_wait_time_formula :
    (∀ now : Nat, ∀ s : RateLimitStore, ∀ uid : Nat,
      (is_rate_limited now s uid).1 = true →
      handle_message_wait now s uid =
        (ddGet (cleanup_rate_limit_store now s) uid).head?.map
          (fun t0 => (RATE_LIMIT_DURATION - (now - t0)) / 1000)) ∧
    (∀ t0 uid : Nat,
      handle_message_wait (t0 + 15000)
        (fun v => if v = uid then some [t0, t0 + 10000] else none) uid = some 45) := by
  constructor
  · intro now s uid h
    simp only [handle_message_wait, h, if_true]
    simp [is_rate_limited, ddGet, ddTouch, seconds_remaining]
  · intro t0 uid
    have ha : t0 + 15000 - t0 < RATE_LIMIT_DURATION := by
      show t0 + 15000 - t0 < 60000
      omega
    have hb : t0 + 15000 - (t0 + 10000) < RATE_LIMIT_DURATION := by
      show t0 + 15000 - (t0 + 10000) < 60000
      omega
    have hc : t0 + 15000 - t0 = 15000 := by omega
    simp [handle_message_wait, is_rate_limited, cleanup_rate_limit_store, ddGet, ddTouch,
      seconds_remaining, ha, hb, hc, MAX_REQUESTS_PER_MINUTE, RATE_LIMIT_DURATION]

/-- Witness for C5: both parts evaluated at timestamps 0 and 10000 ms for
user 0, queried at 15000 ms. -/
theorem C5_witness :
    handle_message_wait 15000 (fun v => if v = 0 then some [0, 10000] else none) 0 =
      (ddGet (cleanup_rate_limit_store 15000
        (fun v => if v = 0 then some [0, 10000] else none)) 0).head?.map
        (fun t0 => (RATE_LIMIT_DURATION - (15000 - t0)) / 1000) ∧
    handle_message_wait 15000 (fun v => if v = 0 then some [0, 10000] else none) 0 = some 45 :=
  ⟨C5_wait_time_formula.1 15000 (fun v => if v = 0 then some [0, 10000] else none) 0 (by decide),
   by have h45 := C5_wait_time_formula.2 0 0; simpa using h45⟩

/-! ## Claim C2 -/

/-- Claim C2: a valid cache entry (non-absent timestamp, strictly inside
the 30-minute window) makes `get_or_compute` return the stored text
without invoking the producer; consequently two calls inside the window
with no other mutation return the same string and the producer runs at
most once. -/
theorem C2_cache_fresh_hit :
    (∀ now : Nat, ∀ c : Cache, ∀ k : CacheKey, ∀ ts : Nat, ∀ resp : String,
      (c k).timestamp = some ts → now - ts < CACHE_DURATION →
      get_or_compute now c k resp = ((c k).text, c, false)) ∧
    (∀ now1 now2 : Nat, ∀ c : Cache, ∀ k : CacheKey, ∀ r1 r2 : String,
      (∀ ts : Nat, ((get_or_compute now1 c k r1).2.1 k).timestamp = some ts →
        now2 - ts < CACHE_DURATION) →
      (get_or_compute now2 (get_or_compute now1 c k r1).2.1 k r2).1 =
        (get_or_compute now1 c k r1).1 ∧
      (get_or_compute now2 (get_or_compute now1 c k r1).2.1 k r2).2.2 = false ∧
      (if (get_or_compute now1 c k r1).2.2 then 1 else 0) +
        (if (get_or_compute now2 (get_or_compute now1 c k r1).2.1 k r2).2.2 then 1 else 0)
        ≤ 1) := by
  constructor
  · intro now c k ts resp hts hlt
    have hv : is_cache_valid now c k = true := by
      simp [is_cache_valid, hts, hlt]
    simp [get_or_compute, hv]
  · intro now1 now2 c k r1 r2 H
    cases hv1 : is_cache_valid now1 c k with
    | true =>
      have hcall1 : get_or_compute now1 c k r1 = ((c k).text, c, false) := by
        simp [get_or_compute, hv1]
      cases h0 : (c k).timestamp with
      | none => simp [is_cache_valid, h0] at hv1
      | some ts =>
        have hts2 : now2 - ts < CACHE_DURATION := H ts (by rw [hcall1]; exact h0)
        have hv2 : is_cache_valid now2 c k = true := by
          simp [is_cache_valid, h0, hts2]
        rw [hcall1]
        simp [get_or_compute, hv2]
    | false =>
      have hcall1 : get_or_compute now1 c k r1 =
          (some r1, fun v => if v = k then ⟨some r1, some now1⟩ else c v, true) := by
        simp [get_or_compute, hv1]
      have hts2 : now2 - now1 < CACHE_DURATION := H now1 (by rw [hcall1]; simp)
      have hv2 : is_cache_valid now2
          (fun v => if v = k then (⟨some r1, some now1⟩ : CacheEntry) else c v) k = true := by
        simp [is_cache_valid, hts2]
      rw [hcall1]
      simp [get_or_compute, hv2]

/-- Witness for C2: a cache whose philosophical entry was stored at
instant 0, hit again at instant 1000 ms. -/
theorem C2_witness :
    get_or_compute 1000 (fun _ => ⟨some "saved", some 0⟩)
      CacheKey.philosophical_discussion "fresh" =
      (((fun (_ : CacheKey) => (⟨some "saved", some 0⟩ : CacheEntry))
          CacheKey.philosophical_discussion).text,
        fun _ => ⟨some "saved", some 0⟩, false) :=
  C2_cache_fresh_hit.1 1000 (fun _ => ⟨some "saved", some 0⟩)
    CacheKey.philosophical_discussion 0 "fresh" rfl (by decide)

/-! ## Claim C3 -/

/-- Claim C3: an absent or more-than-30-minutes-old timestamp makes the
next `get_or_compute` call invoke the producer, store the produced string
with timestamp `now`, and return it. -/
theorem C3_cache_miss_recompute :
    ∀ now : Nat, ∀ c : Cache, ∀ k : CacheKey, ∀ resp : String,
      ((c k).timestamp = none ∨
        (∃ ts : Nat, (c k).timestamp = some ts ∧ CACHE_DURATION < now - ts)) →
      get_or_compute now c k resp =
        (some resp, fun v => if v = k then ⟨some resp, some now⟩ else c v, true) := by
  intro now c k resp h
  have hv : is_cache_valid now c k = false := by
    rcases h with h0 | ⟨ts, hts, hgt⟩
    · simp [is_cache_valid, h0]
    · simp [is_cache_valid, hts]
      omega
  simp [get_or_compute, hv]

/-- Witness for C3: the initial cache (absent timestamp) at instant 5. -/
theorem C3_witness :
    get_or_compute 5 initial_cache CacheKey.absurd_guess "z" =
      (some "z",
        fun v => if v = CacheKey.absurd_guess then ⟨some "z", some 5⟩ else initial_cache v,
        true) :=
  C3_cache_miss_recompute 5 initial_cache CacheKey.absurd_guess "z" (Or.inl rfl)

/-! ## Claim C9 -/

/-- Claim C9: at initialization and after every cache operation (hit or
miss, for either of the two wrapper functions), the entry's `text` is
absent iff its `timestamp` is absent, at every key. -/
theorem C9_text_iff_timestamp :
    cache_inv initial_cache ∧
    (∀ now : Nat, ∀ c : Cache, ∀ k : CacheKey, ∀ resp : String,
      cache_inv c → cache_inv (get_or_compute now c k resp).2.1) ∧
    (∀ now : Nat, ∀ c : Cache, ∀ api : String → String → Option String,
      cache_inv c → cache_inv (philosophical_time_discussion now c api).2.1) ∧
    (∀ now : Nat, ∀ c : Cache, ∀ api : String → String → Option String,
      cache_inv c → cache_inv (absurd_time_guess now c api).2.1) := by
  have hinit : cache_inv initial_cache := by
    intro k
    simp [initial_cache]
  have hstep : ∀ now : Nat, ∀ c : Cache, ∀ k : CacheKey, ∀ resp : String,
      cache_inv c → cache_inv (get_or_compute now c k resp).2.1 := by
    intro now c k resp hc
    cases hv : is_cache_valid now c k with
    | true => simpa [get_or_compute, hv] using hc
    | false =>
      intro k2
      by_cases hk : k2 = k
      · subst hk
        simp [get_or_compute, hv]
      · simp only [get_or_compute, hv, Bool.false_eq_true, if_false]
        simp only [if_neg hk]
        exact hc k2
  refine ⟨hinit, hstep, ?_, ?_⟩
  · intro now c api hc
    show cache_inv (get_or_compute now c CacheKey.philosophical_discussion
      (get_ai_response api PHILOSOPHICAL_PROMPT freeModel).1).2.1
    exact hstep now c _ _ hc
  · intro now c api hc
    show cache_inv (get_or_compute now c CacheKey.absurd_guess
      (get_ai_response api ABSURD_PROMPT freeModel).1).2.1
    exact hstep now c _ _ hc

/-- Witness for C9: the invariant after a miss on the initial cache. -/
theorem C9_witness :
    cache_inv (get_or_compute 0 initial_cache CacheKey.philosophical_discussion "x").2.1 :=
  C9_text_iff_timestamp.2.1 0 initial_cache CacheKey.philosophical_discussion "x"
    (by intro k; simp [initial_cache])

/-! ## Claim C4 -/

theorem get_ai_response_success {api : String → String → Option String}
    {prompt model content : String} (h : api model prompt = some content) :
    get_ai_response api prompt model = (content, [(model, prompt)]) := by
  rw [get_ai_response.eq_def, h]

theorem get_ai_response_free_fail {api : String → String → Option String}
    {prompt : String} (h : api freeModel prompt = none) :
    get_ai_response api prompt freeModel =
      ((get_ai_response api prompt fallbackModel).1,
        (freeModel, prompt) :: (get_ai_response api prompt fallbackModel).2) := by
  conv_lhs => rw [get_ai_response.eq_def, h]
  simp

theorem get_ai_response_fallback_fail {api : String → String → Option String}
    {prompt : String} (h : api fallbackModel prompt = none) :
    get_ai_response api prompt fallbackModel = (FALLBACK_TEXT, [(fallbackModel, prompt)]) := by
  have hne : ¬ (fallbackModel = freeModel) := by decide
  rw [get_ai_response.eq_def, h]
  simp [hne]

/-- Claim C4: when the free default model's call fails, `get_ai_response`
retries exactly once, with the fallback model and the same prompt; when
that also fails, or when the failing call was already on the fallback
model, it returns the fixed apology string; at most two calls are ever
attempted, and the function is total (no failure of the oracle escapes). -/
theorem C4_fallback_exactly_once :
    ∀ api : String → String → Option String, ∀ prompt : String,
      (∀ content : String, api freeModel prompt = some content →
        get_ai_response api prompt freeModel = (content, [(freeModel, prompt)])) ∧
      (api freeModel prompt = none →
        (get_ai_response api prompt freeModel).2 =
          [(freeModel, prompt), (fallbackModel, prompt)] ∧
        (api fallbackModel prompt = none →
          (get_ai_response api prompt freeModel).1 = FALLBACK_TEXT) ∧
        (∀ c : String, api fallbackModel prompt = some c →
          (get_ai_response api prompt freeModel).1 = c)) ∧
      (api fallbackModel prompt = none →
        get_ai_response api prompt fallbackModel =
          (FALLBACK_TEXT, [(fallbackModel, prompt)])) ∧
      (get_ai_response api prompt freeModel).2.length ≤ 2 := by
  intro api prompt
  refine ⟨fun content h => get_ai_response_success h, ?_, fun h => get_ai_response_fallback_fail h, ?_⟩
  · intro hff
    rw [get_ai_response_free_fail hff]
    cases hf2 : api fallbackModel prompt with
    | some c =>
      rw [get_ai_response_success hf2]
      refine ⟨rfl, ?_, ?_⟩
      · intro hc
        simp at hc
      · intro c2 hc2
        have hcc : c = c2 := Option.some_inj.mp hc2
        rw [← hcc]
    | none =>
      rw [get_ai_response_fallback_fail hf2]
      refine ⟨rfl, fun _ => rfl, ?_⟩
      intro c2 hc2
      simp at hc2
  · cases hf : api freeModel prompt with
    | some content =>
      rw [get_ai_response_success hf]
      simp
    | none =>
      rw [get_ai_response_free_fail hf]
      cases hf2 : api fallbackModel prompt with
      | some c =>
        rw [get_ai_response_success hf2]
        simp
      | none =>
        rw [get_ai_response_fallback_fail hf2]
        simp

/-- Witness for C4: an oracle that fails on every call, with a concrete
prompt. -/
theorem C4_witness :
    get_ai_response (fun _ _ => none) "what time is it" fallbackModel =
      (FALLBACK_TEXT, [(fallbackModel, "what time is it")]) ∧
    (get_ai_response (fun _ _ => none) "what time is it" freeModel).2 =
      [(freeModel, "what time is it"), (fallbackModel, "what time is it")] :=
  ⟨(C4_fallback_exactly_once (fun _ _ => none) "what time is it").2.2.1 rfl,
   ((C4_fallback_exactly_once (fun _ _ => none) "what time is it").2.1 rfl).1⟩

/-! ## Claim C7 -/

/-- Counterexample for claim C7 as stated: the sequence emits seven
message sends, not six — the third intro ("let me try a more scientific
approach") sits between the guess text and the estimation text. -/
theorem C7_counterexample :
    (messagesOf (time_process "p" "g" "e")).length ≠ 6 := by
  have h7 : (messagesOf (time_process "p" "g" "e")).length = 7 := rfl
  omega

/-- Claim C7 (amended): every invocation of the sequence produces exactly
7 outbound message emissions (plus 6 typing indicators, 13 outbound
operations in all) in the fixed order intro-1, philosophy-text, intro-2,
guess-text, intro-3, estimation-text, closing-text, and the closing text
contains the literal clock URL. -/
theorem C7_amended_seven_messages :
    ∀ p g e : String,
      messagesOf (time_process p g e) =
        [INTRO_1, p, INTRO_2, g, INTRO_3, e, CLOSING_TEXT] ∧
      (time_process p g e).length = 13 ∧
      containsSubstring CLOSING_TEXT CLOCK_URL := by
  intro p g e
  exact ⟨rfl, rfl, CLOSING_BEFORE_URL, CLOSING_AFTER_URL, rfl⟩

/-! ## Claim C8 -/

/-- Claim C8: the ridiculous-estimation step — a pure function of four
fresh random draws, touching neither the cache nor the API oracle —
produces one of the five fixed templates followed by an hour in 1..12, an
unpadded minute in 0..59 and an AM/PM marker. -/
theorem C8_estimation_shape :
    ∀ choiceSeed hourSeed minuteSeed : Nat, ∀ amCoin : Bool,
      ∃ template : String, ∃ h m : Nat,
        template ∈ methods ∧ 1 ≤ h ∧ h ≤ 12 ∧ m ≤ 59 ∧
        ridiculous_time_estimation choiceSeed hourSeed minuteSeed amCoin =
          template ++ " I estimate it\u0027s " ++ toString h ++ ":" ++ toString m ++
            " " ++ (if amCoin then "AM" else "PM") ++ "!" := by
  intro cs hs ms coin
  refine ⟨methods.getD (cs % methods.length) "", randint 1 12 hs, randint 0 59 ms,
    ?_, ?_, ?_, ?_, rfl⟩
  · have h5 : cs % methods.length < methods.length :=
      Nat.mod_lt _ (by simp [methods])
    generalize hgen : cs % methods.length = i at h5
    have h5' : i < 5 := by simpa [methods] using h5
    interval_cases i <;> simp [methods]
  · have e1 : randint 1 12 hs = 1 + hs % 12 := rfl
    omega
  · have e1 : randint 1 12 hs = 1 + hs % 12 := rfl
    omega
  · have e2 : randint 0 59 ms = 0 + ms % 60 := rfl
    omega
